import Mathlib

/-!
Verification development for the raspberry_GF telemetry bridge
(src/raspberry_to_gcp.py, src/3_raspberry_to_gcp.py).

Embedding conventions:
* A log line is represented by the list of its semicolon-separated fields
  (the scripts split each stripped line on `";"` and from then on only touch
  the resulting list).
* Python `int(...)` / `float(...)` conversions are modelled by `pyInt` /
  `pyFloat`, returning `none` where Python raises `ValueError`; float values
  are modelled exactly as rationals.
* The observation timestamp (`datetime.now(...)` converted to UTC and then
  `isoformat()`-ed) is an input of the model, passed as an explicit `ts`
  string.
* Remote sinks are modelled by their observable behaviour: the Firestore
  write performed (`FsWrite`), the BigQuery insert attempts and their
  success (a `Bool`, or an attempt-indexed oracle for the retrying variant)
  and the sleeps executed.
-/

/-- Digits-only parser: `some` of the value of a nonempty all-digit string,
`none` otherwise. -/
def parseDigits (cs : List Char) : Option Nat :=
  if cs.isEmpty then none
  else if cs.all Char.isDigit then
    some (cs.foldl (fun a c => a * 10 + (c.toNat - 48)) 0)
  else none

/-- Surrounding whitespace removed from a character list, as Python's
`str.strip` and the implicit stripping of `int`/`float` do. -/
def stripChars (cs : List Char) : List Char :=
  ((cs.dropWhile Char.isWhitespace).reverse.dropWhile Char.isWhitespace).reverse

/-- Model of Python `int(s)` on optionally signed decimal strings
(surrounding whitespace stripped, as `int` does); `none` models a raised
`ValueError`. -/
def pyInt (s : String) : Option Int :=
  match stripChars s.data with
  | '-' :: cs => (parseDigits cs).map fun n => -(n : Int)
  | '+' :: cs => (parseDigits cs).map fun n => (n : Int)
  | cs => (parseDigits cs).map fun n => (n : Int)

/-- Numeric value of a digit list read in base 10. -/
def digitsToNat (cs : List Char) : Nat :=
  cs.foldl (fun a c => a * 10 + (c.toNat - 48)) 0

/-- Unsigned decimal literal `ddd`, `ddd.ddd`, `ddd.` or `.ddd`, valued
exactly as a rational. -/
def pyFloatCore (cs : List Char) : Option ℚ :=
  let ip := cs.takeWhile Char.isDigit
  let rest := cs.dropWhile Char.isDigit
  match rest with
  | [] => if ip.isEmpty then none else some (digitsToNat ip : ℚ)
  | '.' :: fp =>
      if fp.all Char.isDigit && !(ip.isEmpty && fp.isEmpty) then
        some ((digitsToNat ip : ℚ) + (digitsToNat fp : ℚ) / (10 : ℚ) ^ fp.length)
      else none
  | _ => none

/-- Model of Python `float(s)` on optionally signed decimal literals
(surrounding whitespace stripped); `none` models a raised `ValueError`.
Float values are modelled exactly, as rationals. -/
def pyFloat (s : String) : Option ℚ :=
  match stripChars s.data with
  | '-' :: cs => (pyFloatCore cs).map fun q => -q
  | '+' :: cs => pyFloatCore cs
  | cs => pyFloatCore cs

/-- Machine name constant `MACHINE_NAME` of src/raspberry_to_gcp.py. -/
def MACHINE_NAME : String := "UIP 2 - Coteau [G50-H]"

/-- Location name constant `CURRENT_LOCATION` of src/raspberry_to_gcp.py. -/
def CURRENT_LOCATION : String := "Coteau-du-Lac"

/-- Geographic point constant `LOCATION_INFO` of src/raspberry_to_gcp.py. -/
def LOCATION_INFO : String := "POINT(-74.1771 45.3053)"

/-- Retry constant `MAX_ATTEMPTS_BQ` of src/3_raspberry_to_gcp.py. -/
def MAX_ATTEMPTS_BQ : Nat := 3

/-- Retry constant `INITIAL_DELAY_BQ` of src/3_raspberry_to_gcp.py. -/
def INITIAL_DELAY_BQ : Nat := 3

/-- Retry constant `MAX_ATTEMPTS_FS` of src/3_raspberry_to_gcp.py. -/
def MAX_ATTEMPTS_FS : Nat := 3

/-- Retry constant `INITIAL_DELAY_FS` of src/3_raspberry_to_gcp.py. -/
def INITIAL_DELAY_FS : Nat := 2

/-- Cooldown constant `COOL_DOWN_PERIOD` of src/3_raspberry_to_gcp.py. -/
def COOL_DOWN_PERIOD : Nat := 25

/-- The dictionary `parse_log_line` builds: one field per key, in the order
of the source. -/
structure Reading where
  timestamp : String
  minuteID : Int
  isoTempReal : ℚ
  isoTempSet : ℚ
  resinTempReal : ℚ
  resinTempSet : ℚ
  hoseTempReal : ℚ
  hoseTempSet : ℚ
  value8 : ℚ
  value9 : ℚ
  isoAmperage : ℚ
  resinAmperage : ℚ
  isoPressure : ℚ
  resinPressure : ℚ
  counter : Int
  value15 : ℚ
  status : String
  machine : String
  location : String
  locationName : String
deriving Repr, DecidableEq

/-- Model of `parse_log_line` (src/raspberry_to_gcp.py lines 83-138):
`values` is the semicolon-split line, `ts` the observation timestamp the
function captures from the system clock. `none` models the `None` returned
for a short line or a `ValueError` of one of the conversions. -/
def parse_log_line (ts : String) (values : List String) : Option Reading :=
  if values.length < 17 then none
  else
    match pyInt (values.getD 1 ""), pyFloat (values.getD 2 ""), pyFloat (values.getD 3 ""),
        pyFloat (values.getD 4 ""), pyFloat (values.getD 5 ""), pyFloat (values.getD 6 ""),
        pyFloat (values.getD 7 ""), pyFloat (values.getD 8 ""), pyFloat (values.getD 9 ""),
        pyFloat (values.getD 10 ""), pyFloat (values.getD 11 ""), pyFloat (values.getD 12 ""),
        pyFloat (values.getD 13 ""), pyInt (values.getD 14 ""), pyFloat (values.getD 15 "") with
    | some v1, some v2, some v3, some v4, some v5, some v6, some v7, some v8, some v9,
      some v10, some v11, some v12, some v13, some v14, some v15 =>
        some { timestamp := ts, minuteID := v1, isoTempReal := v2, isoTempSet := v3,
               resinTempReal := v4, resinTempSet := v5, hoseTempReal := v6, hoseTempSet := v7,
               value8 := v8, value9 := v9, isoAmperage := v10, resinAmperage := v11,
               isoPressure := v12, resinPressure := v13, counter := v14, value15 := v15,
               status := values.getD 16 "", machine := MACHINE_NAME,
               location := LOCATION_INFO, locationName := CURRENT_LOCATION }
    | _, _, _, _, _, _, _, _, _, _, _, _, _, _, _ => none

/-- All designated numeric fields of a split line convert without a
`ValueError`: `int` on fields 1 and 14, `float` on fields 2-13 and 15. -/
def numericFieldsParseable (values : List String) : Bool :=
  (pyInt (values.getD 1 "")).isSome && (pyFloat (values.getD 2 "")).isSome &&
  (pyFloat (values.getD 3 "")).isSome && (pyFloat (values.getD 4 "")).isSome &&
  (pyFloat (values.getD 5 "")).isSome && (pyFloat (values.getD 6 "")).isSome &&
  (pyFloat (values.getD 7 "")).isSome && (pyFloat (values.getD 8 "")).isSome &&
  (pyFloat (values.getD 9 "")).isSome && (pyFloat (values.getD 10 "")).isSome &&
  (pyFloat (values.getD 11 "")).isSome && (pyFloat (values.getD 12 "")).isSome &&
  (pyFloat (values.getD 13 "")).isSome && (pyInt (values.getD 14 "")).isSome &&
  (pyFloat (values.getD 15 "")).isSome

/-- The status rule of `continuously_monitor` (src/raspberry_to_gcp.py line
240): `"Running" if last_digit != third_last_digit and last_digit != 0 else
"Stopped"`. The first argument is the reference (third-last) counter, the
second the current (last) counter. -/
def deriveStatus (third_last_digit last_digit : Int) : String :=
  if last_digit ≠ third_last_digit ∧ last_digit ≠ 0 then "Running" else "Stopped"

/-- The counter extraction `int(line.strip().split(";")[-2])` of
`continuously_monitor` (src/raspberry_to_gcp.py lines 236-237): `none`
models the caught `IndexError` (fewer than two fields) or `ValueError`. -/
def extractCounter (fields : List String) : Option Int :=
  if fields.length < 2 then none
  else pyInt (fields.getD (fields.length - 2) "")

/-- The Firestore write `update_firestore` performs: a full document `set`
(location, status, event timestamp, heartbeat timestamp) or a merge
`update` of the heartbeat timestamp only. -/
inductive FsWrite where
  | set (location status timestamp piTimestamp : String)
  | update (piTimestamp : String)
deriving Repr, DecidableEq

/-- Model of `update_firestore` (src/raspberry_to_gcp.py lines 159-184,
identically decided in src/3_raspberry_to_gcp.py lines 174-199): the write
performed on the machine's document. `previous_status` is `None` or the
last delivered status; `doc_ref.set` runs when it differs from the new
reading's status, `doc_ref.update` when it is equal. -/
def update_firestore (data : Reading) (previous_status : Option String) : FsWrite :=
  if previous_status = some data.status then FsWrite.update data.timestamp
  else FsWrite.set data.locationName data.status data.timestamp data.timestamp

/-- Observable outcome of one cycle of `continuously_monitor` in
src/raspberry_to_gcp.py: the Firestore writes performed, the readings
handed to `send_to_bigquery` with the outcome of each insert, the value of
`last_sent` afterwards, and whether the trailing `time.sleep(interval)` ran
(the `continue` on a duplicate reading bypasses it). -/
structure StepOutA where
  fsWrites : List FsWrite
  bqCalls : List Reading
  bqOutcomes : List Bool
  last_sent : Option Reading
  sleptInterval : Bool
deriving Repr, DecidableEq

/-- Dispatch portion of `continuously_monitor` (src/raspberry_to_gcp.py
lines 250-257), entered once `parse_log_line` returned `data`: Firestore is
written first; a reading equal to `last_sent` then hits `continue` (no
BigQuery insert, state unchanged, and the interval sleep is skipped);
otherwise the reading is sent to BigQuery — `bqOk` records whether that
insert succeeds, `send_to_bigquery` swallows any failure — and `last_sent`
becomes the reading unconditionally. -/
def dispatchA (bqOk : Bool) (data : Reading) (previous_status : Option String)
    (last_sent : Option Reading) : StepOutA :=
  let w := update_firestore data previous_status
  if some data = last_sent then
    { fsWrites := [w], bqCalls := [], bqOutcomes := [], last_sent := last_sent,
      sleptInterval := false }
  else
    { fsWrites := [w], bqCalls := [data], bqOutcomes := [bqOk], last_sent := some data,
      sleptInterval := true }

/-- One full iteration of the `while True` loop of `continuously_monitor`
(src/raspberry_to_gcp.py lines 219-267). `lines` is the split content of
the log file (`get_log_lines` already returns `[]` on failure), `ts` the
observation timestamp of the cycle, `bqOk` the outcome a BigQuery insert
would have. Every caught exception path falls through to the interval
sleep; only the duplicate `continue` skips it. -/
def monitorStepA (ts : String) (bqOk : Bool) (lines : List (List String))
    (last_sent : Option Reading) : StepOutA :=
  if lines.length < 3 then
    { fsWrites := [], bqCalls := [], bqOutcomes := [], last_sent := last_sent,
      sleptInterval := true }
  else
    let lastThree := lines.drop (lines.length - 3)
    let third_last := lastThree.headD []
    let last := lastThree.getLastD []
    match extractCounter last, extractCounter third_last with
    | some last_digit, some third_last_digit =>
        let status := deriveStatus third_last_digit last_digit
        match parse_log_line ts (last ++ [status]) with
        | some data => dispatchA bqOk data (last_sent.map Reading.status) last_sent
        | none =>
            { fsWrites := [], bqCalls := [], bqOutcomes := [], last_sent := last_sent,
              sleptInterval := true }
    | _, _ =>
        { fsWrites := [], bqCalls := [], bqOutcomes := [], last_sent := last_sent,
          sleptInterval := true }

/-- The `for attempt in range(1, max_attempts + 1)` retry loop shared by
`send_to_bigquery` and `update_firestore` in src/3_raspberry_to_gcp.py:
`ok k` is whether the k-th (1-indexed) write attempt succeeds, `attempt`
the current attempt number and the second numeric argument the number of
attempts remaining (including the current one). Returns the backoff sleeps
executed inside the loop and whether some attempt succeeded; a failed
attempt that is not the last sleeps `initD * 2 ^ (attempt - 1)`. -/
def sinkGo (initD : Nat) (ok : Nat → Bool) : Nat → Nat → List Nat × Bool
  | _, 0 => ([], false)
  | attempt, 1 => if ok attempt then ([], true) else ([], false)
  | attempt, rem + 2 =>
      if ok attempt then ([], true)
      else
        let rest := sinkGo initD ok (attempt + 1) (rem + 1)
        (initD * 2 ^ (attempt - 1) :: rest.1, rest.2)

/-- A full sink adapter call in src/3_raspberry_to_gcp.py (lines 144-172
for BigQuery, same structure for Firestore): run the retry loop from
attempt 1; if no attempt succeeded, sleep the cooldown period once. The
function itself returns no value to its caller; the `Bool` records whether
a write was accepted. -/
def sinkWrite (initD coolD maxA : Nat) (ok : Nat → Bool) : List Nat × Bool :=
  let r := sinkGo initD ok 1 maxA
  if r.2 then r else (r.1 ++ [coolD], false)

/-- Model of `send_to_bigquery` of src/3_raspberry_to_gcp.py (lines
144-172): the retrying BigQuery adapter with its configured constants. -/
def send_to_bigquery (ok : Nat → Bool) : List Nat × Bool :=
  sinkWrite INITIAL_DELAY_BQ COOL_DOWN_PERIOD MAX_ATTEMPTS_BQ ok

/-- Observable outcome of the dispatch portion of one cycle of
`continuously_monitor` in src/3_raspberry_to_gcp.py: Firestore writes,
readings handed to `send_to_bigquery`, the (sleeps, success) trace of each
such call, the value of `last_sent` afterwards, and whether the trailing
interval sleep ran. -/
structure StepOutB where
  fsWrites : List FsWrite
  bqCalls : List Reading
  bqRuns : List (List Nat × Bool)
  last_sent : Option Reading
  sleptInterval : Bool
deriving Repr, DecidableEq

/-- Dispatch portion of `continuously_monitor` in src/3_raspberry_to_gcp.py
(lines 265-286), entered once `parse_log_line` returned `data`: Firestore
is written only when the classifier `status` differs from the previous
status (`update_needed`); a reading equal to `last_sent` then hits
`continue`; otherwise the reading goes to the retrying `send_to_bigquery`
and `last_sent` becomes the reading unconditionally. -/
def dispatchB (bqOk : Nat → Bool) (status : String) (data : Reading)
    (last_sent : Option Reading) : StepOutB :=
  let previous_status := last_sent.map Reading.status
  let fs := if previous_status = some status then []
            else [update_firestore data previous_status]
  if some data = last_sent then
    { fsWrites := fs, bqCalls := [], bqRuns := [], last_sent := last_sent,
      sleptInterval := false }
  else
    { fsWrites := fs, bqCalls := [data], bqRuns := [send_to_bigquery bqOk],
      last_sent := some data, sleptInterval := true }

/-- Claim C1: the classifier returns `"Running"` iff the current counter
differs from the reference counter and is nonzero, and `"Stopped"`
otherwise; in particular classify(5,5), classify(5,0) are Stopped and
classify(0,7), classify(5,7) are Running. -/
theorem deriveStatus_running_iff :
    (∀ ref cur : Int,
        (deriveStatus ref cur = "Running" ↔ (cur ≠ ref ∧ cur ≠ 0)) ∧
        (deriveStatus ref cur = "Stopped" ↔ ¬(cur ≠ ref ∧ cur ≠ 0))) ∧
    deriveStatus 5 5 = "Stopped" ∧ deriveStatus 5 0 = "Stopped" ∧
    deriveStatus 0 7 = "Running" ∧ deriveStatus 5 7 = "Running" := by
  refine ⟨fun ref cur => ?_, by decide, by decide, by decide, by decide⟩
  unfold deriveStatus
  by_cases h : cur ≠ ref ∧ cur ≠ 0
  · rw [if_pos h]
    exact ⟨⟨fun _ => h, fun _ => rfl⟩, ⟨fun he => absurd he (by decide), fun hn => absurd h hn⟩⟩
  · rw [if_neg h]
    exact ⟨⟨fun he => absurd he.symm (by decide), fun hc => absurd hc h⟩,
      ⟨fun _ => h, fun _ => rfl⟩⟩

/-- A concrete 16-field raw log line (split form), counter field "5". -/
def lineL : List String :=
  ["0", "1", "2", "3", "4", "5", "6", "7", "8", "9", "10", "11", "12", "13", "5", "15"]

/-- The reading `parse_log_line "T" (lineL ++ ["Stopped"])` produces. -/
def r0 : Reading :=
  { timestamp := "T", minuteID := 1, isoTempReal := 2, isoTempSet := 3,
    resinTempReal := 4, resinTempSet := 5, hoseTempReal := 6, hoseTempSet := 7,
    value8 := 8, value9 := 9, isoAmperage := 10, resinAmperage := 11,
    isoPressure := 12, resinPressure := 13, counter := 5, value15 := 15,
    status := "Stopped", machine := MACHINE_NAME, location := LOCATION_INFO,
    locationName := CURRENT_LOCATION }

/-- A distinct reading: same telemetry as `r0` but another timestamp,
counter and status. -/
def r1 : Reading :=
  { r0 with timestamp := "T2", counter := 9, status := "Running" }


/-- Inversion of a successful parse: the line had at least 17 fields, every
designated numeric field converted, and the reading's fields come from the
designated positions (timestamp from the clock, counter from field 14,
status verbatim from field 16). -/
theorem parse_log_line_some_inv (ts : String) (values : List String) (r : Reading)
    (hp : parse_log_line ts values = some r) :
    17 ≤ values.length ∧ numericFieldsParseable values = true ∧
    r.timestamp = ts ∧ pyInt (values.getD 1 "") = some r.minuteID ∧
    pyInt (values.getD 14 "") = some r.counter ∧ r.status = values.getD 16 "" := by
  unfold parse_log_line at hp
  split at hp
  · exact absurd hp (by simp)
  · rename_i hlen
    split at hp
    · rename_i e1 e2 e3 e4 e5 e6 e7 e8 e9 e10 e11 e12 e13 e14 e15
      injection hp with hr
      subst hr
      refine ⟨by omega, ?_, rfl, by rw [e1], by rw [e14], rfl⟩
      unfold numericFieldsParseable
      rw [e1, e2, e3, e4, e5, e6, e7, e8, e9, e10, e11, e12, e13, e14, e15]
      rfl
    · exact absurd hp (by simp)

/-- A line with at least 17 fields whose designated numeric fields all
convert parses successfully, with the status copied from field 16 and the
timestamp from the clock. -/
theorem parse_log_line_total (ts : String) (values : List String)
    (h17 : 17 ≤ values.length) (hn : numericFieldsParseable values = true) :
    ∃ r, parse_log_line ts values = some r ∧ r.status = values.getD 16 "" ∧
      r.timestamp = ts := by
  unfold numericFieldsParseable at hn
  simp only [Bool.and_eq_true] at hn
  obtain ⟨⟨⟨⟨⟨⟨⟨⟨⟨⟨⟨⟨⟨⟨h1, h2⟩, h3⟩, h4⟩, h5⟩, h6⟩, h7⟩, h8⟩, h9⟩, h10⟩, h11⟩, h12⟩,
    h13⟩, h14⟩, h15⟩ := hn
  obtain ⟨v1, e1⟩ := Option.isSome_iff_exists.mp h1
  obtain ⟨v2, e2⟩ := Option.isSome_iff_exists.mp h2
  obtain ⟨v3, e3⟩ := Option.isSome_iff_exists.mp h3
  obtain ⟨v4, e4⟩ := Option.isSome_iff_exists.mp h4
  obtain ⟨v5, e5⟩ := Option.isSome_iff_exists.mp h5
  obtain ⟨v6, e6⟩ := Option.isSome_iff_exists.mp h6
  obtain ⟨v7, e7⟩ := Option.isSome_iff_exists.mp h7
  obtain ⟨v8, e8⟩ := Option.isSome_iff_exists.mp h8
  obtain ⟨v9, e9⟩ := Option.isSome_iff_exists.mp h9
  obtain ⟨v10, e10⟩ := Option.isSome_iff_exists.mp h10
  obtain ⟨v11, e11⟩ := Option.isSome_iff_exists.mp h11
  obtain ⟨v12, e12⟩ := Option.isSome_iff_exists.mp h12
  obtain ⟨v13, e13⟩ := Option.isSome_iff_exists.mp h13
  obtain ⟨v14, e14⟩ := Option.isSome_iff_exists.mp h14
  obtain ⟨v15, e15⟩ := Option.isSome_iff_exists.mp h15
  unfold parse_log_line
  rw [if_neg (by omega), e1, e2, e3, e4, e5, e6, e7, e8, e9, e10, e11, e12, e13, e14, e15]
  exact ⟨_, rfl, rfl, rfl⟩

/-- A concrete 17-field line whose 17th field is not a status token. -/
def junkLine : List String := lineL ++ ["Junk"]

/-- Claim C4 (amended): for every line with at least 17 fields whose
designated numeric fields are parseable, `parse_log_line` returns a
Reading (it never throws) whose status is copied verbatim from field 16;
in particular, whenever that field is one of the two enum values — as the
pipeline guarantees by appending the classifier's output to a 16-field raw
line — the reading's status is `"Running"` or `"Stopped"` and never null. -/
theorem parse_status_from_field16 (ts : String) (values : List String)
    (h17 : 17 ≤ values.length) (hn : numericFieldsParseable values = true)
    (hs : values.getD 16 "" = "Running" ∨ values.getD 16 "" = "Stopped") :
    ∃ r, parse_log_line ts values = some r ∧
      (r.status = "Running" ∨ r.status = "Stopped") := by
  obtain ⟨r, hr, hst, -⟩ := parse_log_line_total ts values h17 hn
  exact ⟨r, hr, hst ▸ hs⟩

/-- Witness for claim C4's amended theorem at a concrete pipeline line. -/
theorem parse_status_from_field16_witness :
    ∃ r, parse_log_line "T" (lineL ++ ["Stopped"]) = some r ∧
      (r.status = "Running" ∨ r.status = "Stopped") :=
  parse_status_from_field16 "T" (lineL ++ ["Stopped"]) (by decide) (by decide)
    (Or.inr (by decide))

/-- Claim C4 counterexample: a 17-field line with parseable numeric fields
whose 17th field is `"Junk"` parses to a reading whose status is neither
`"Running"` nor `"Stopped"`. -/
theorem parse_status_junk_cex :
    ∃ r, parse_log_line "T" junkLine = some r ∧
      r.status ≠ "Running" ∧ r.status ≠ "Stopped" :=
  ⟨{ r0 with status := "Junk" }, by decide, by decide, by decide⟩

/-- Claim C5 (amended): when the raw line has exactly 16 fields — so 17
once the classifier's status is appended — the integer the classifier
extracts from the raw line's penultimate field is exactly the value the
parser stores as the reading's Counter (field 14). -/
theorem extractCounter_matches_parse (ts : String) (fields : List String) (status : String)
    (r : Reading) (h16 : fields.length = 16)
    (hp : parse_log_line ts (fields ++ [status]) = some r) :
    extractCounter fields = some r.counter := by
  have hc := (parse_log_line_some_inv ts (fields ++ [status]) r hp).2.2.2.2.1
  rw [List.getD_append _ _ _ _ (by omega)] at hc
  unfold extractCounter
  rw [if_neg (by omega), h16]
  exact hc

/-- Witness for claim C5's amended theorem at a concrete 16-field line. -/
theorem extractCounter_matches_parse_witness : extractCounter lineL = some r0.counter :=
  extractCounter_matches_parse "T" lineL "Stopped" r0 (by decide) (by decide)

/-- A concrete 17-field raw line: field 14 is `"5"`, the penultimate field
is `"15"`. -/
def cexLine17 : List String := lineL ++ ["16"]

/-- Claim C5 counterexample: on a raw line with 17 fields the classifier
extracts the penultimate field (value 15) while the parser stores field 14
(value 5) as the Counter of the reading built from that same line with the
classifier's status appended, so the two differ. -/
theorem classifier_counter_mismatch_cex :
    extractCounter cexLine17 = some 15 ∧
    parse_log_line "T" (cexLine17 ++ ["Stopped"]) =
      some { r0 with status := "16" } ∧
    extractCounter cexLine17 ≠ some ({ r0 with status := "16" } : Reading).counter := by
  refine ⟨by decide, by decide, by decide⟩

/-- Claim C7: a line with fewer than 17 semicolon-separated fields parses
to an error result (`none`, no Reading); and parsing is total — a
successful parse forces at least 17 fields and all designated numeric
fields parseable, so any malformed input yields `none` rather than an
exception. -/
theorem parse_malformed_returns_none :
    (∀ (ts : String) (values : List String), values.length < 17 →
        parse_log_line ts values = none) ∧
    (∀ (ts : String) (values : List String) (r : Reading),
        parse_log_line ts values = some r →
        17 ≤ values.length ∧ numericFieldsParseable values = true) := by
  constructor
  · intro ts values h
    unfold parse_log_line
    rw [if_pos h]
  · intro ts values r hp
    have h := parse_log_line_some_inv ts values r hp
    exact ⟨h.1, h.2.1⟩

/-- Claim C6: whenever the new reading's status differs from the previous
delivered status — the cold start `none` included — `update_firestore`
performs a `set`-mode write replacing the whole document with location,
status, event timestamp and heartbeat timestamp. -/
theorem update_firestore_set_on_transition (data : Reading)
    (previous_status : Option String) (h : previous_status ≠ some data.status) :
    update_firestore data previous_status =
      FsWrite.set data.locationName data.status data.timestamp data.timestamp := by
  unfold update_firestore
  rw [if_neg h]

/-- Witness for claim C6's theorem: cold start against a concrete reading. -/
theorem update_firestore_set_on_transition_witness :
    update_firestore r0 none =
      FsWrite.set r0.locationName r0.status r0.timestamp r0.timestamp :=
  update_firestore_set_on_transition r0 none (by decide)

/-- Claim C10: the duplicate check `data == last_sent` compares whole
readings, the parse-time timestamp included, so a reading identical to the
last delivered one except for its observation timestamp is not treated as
a duplicate: it is sent to BigQuery and becomes the new `last_sent`. -/
theorem duplicate_check_includes_timestamp (bqOk : Bool) (r : Reading) (t2 : String)
    (h : t2 ≠ r.timestamp) :
    (dispatchA bqOk { r with timestamp := t2 } (some r.status) (some r)).bqCalls =
      [{ r with timestamp := t2 }] ∧
    (dispatchA bqOk { r with timestamp := t2 } (some r.status) (some r)).last_sent =
      some { r with timestamp := t2 } := by
  have hne : ({ r with timestamp := t2 } : Reading) ≠ r := fun he =>
    h (congrArg Reading.timestamp he)
  unfold dispatchA
  rw [if_neg (fun hc => hne (Option.some.inj hc))]
  exact ⟨rfl, rfl⟩

/-- Witness for claim C10's theorem at a concrete reading and timestamps. -/
theorem duplicate_check_includes_timestamp_witness :
    (dispatchA true { r0 with timestamp := "T2" } (some r0.status) (some r0)).bqCalls =
      [{ r0 with timestamp := "T2" }] ∧
    (dispatchA true { r0 with timestamp := "T2" } (some r0.status) (some r0)).last_sent =
      some { r0 with timestamp := "T2" } :=
  duplicate_check_includes_timestamp true r0 "T2" (by decide)

/-- Claim C2 (amended): after any non-duplicate parsed cycle, `last_sent`
is set to the new reading regardless of whether the append-sink insert
succeeded — `send_to_bigquery` swallows its failures and the pipeline
updates the state unconditionally. -/
theorem last_sent_updated_regardless (bqOk : Bool) (data : Reading)
    (previous_status : Option String) (last_sent : Option Reading)
    (h : some data ≠ last_sent) :
    (dispatchA bqOk data previous_status last_sent).last_sent = some data ∧
    (dispatchA bqOk data previous_status last_sent).bqOutcomes = [bqOk] := by
  unfold dispatchA
  rw [if_neg h]
  exact ⟨rfl, rfl⟩

/-- Witness for claim C2's amended theorem: a failing insert (`bqOk =
false`) still rebinds `last_sent`. -/
theorem last_sent_updated_regardless_witness :
    (dispatchA false r1 (some "Stopped") (some r0)).last_sent = some r1 ∧
    (dispatchA false r1 (some "Stopped") (some r0)).bqOutcomes = [false] :=
  last_sent_updated_regardless false r1 (some "Stopped") (some r0) (by decide)

/-- Claim C2 counterexample: a cycle whose BigQuery write fails outright —
in the retrying variant every attempt fails, the adapter sleeps 3, 6 and
the 25-second cooldown and never succeeds — still mutates `last_sent` to
the new reading. -/
theorem failed_append_still_updates_state_cex :
    (dispatchB (fun _ => false) "Running" r1 (some r0)).bqRuns =
      [([3, 6, 25], false)] ∧
    (dispatchB (fun _ => false) "Running" r1 (some r0)).last_sent = some r1 ∧
    some r1 ≠ some r0 := by
  refine ⟨by decide, by decide, by decide⟩

/-- Claim C3 (amended): a new reading field-for-field identical to the
prior delivered reading causes zero append-sink writes in both variants;
src/raspberry_to_gcp.py still performs exactly one `UpdateOnly` Firestore
write refreshing the heartbeat timestamp, while src/3_raspberry_to_gcp.py
performs no Firestore write at all (it only writes Firestore on a status
change). -/
theorem duplicate_cycle_writes (bqOkA : Bool) (bqOkB : Nat → Bool) (data : Reading) :
    dispatchA bqOkA data (some data.status) (some data) =
      { fsWrites := [FsWrite.update data.timestamp], bqCalls := [], bqOutcomes := [],
        last_sent := some data, sleptInterval := false } ∧
    dispatchB bqOkB data.status data (some data) =
      { fsWrites := [], bqCalls := [], bqRuns := [], last_sent := some data,
        sleptInterval := false } := by
  constructor
  · unfold dispatchA update_firestore
    simp
  · unfold dispatchB
    simp

/-- Claim C3 counterexample: in src/3_raspberry_to_gcp.py a duplicate
reading (status unchanged) produces no Firestore write at all — not the
single `UpdateOnly` upsert the claim requires — alongside the zero
BigQuery writes. -/
theorem duplicate_no_upsert_variant3_cex :
    (dispatchB (fun _ => false) r0.status r0 (some r0)).fsWrites = [] ∧
    (dispatchB (fun _ => false) r0.status r0 (some r0)).bqCalls = [] := by
  refine ⟨by decide, by decide⟩

/-- Retry loop run from `attempt` with `rem` attempts remaining: when the
first success comes `n` failed attempts later (still within the loop), the
loop sleeps the geometric backoff for each failed attempt and reports
success. -/
theorem sinkGo_first_success (initD : Nat) (ok : Nat → Bool) :
    ∀ (n attempt rem : Nat), 1 ≤ attempt → n < rem →
      (∀ k, k < n → ok (attempt + k) = false) → ok (attempt + n) = true →
      sinkGo initD ok attempt rem =
        ((List.range n).map fun j => initD * 2 ^ (attempt - 1 + j), true) := by
  intro n
  induction n with
  | zero =>
      intro attempt rem h1 hrem hf hs
      have hs' : ok attempt = true := by simpa using hs
      cases rem with
      | zero => omega
      | succ m =>
          cases m with
          | zero => simp [sinkGo, hs']
          | succ m => simp [sinkGo, hs']
  | succ n ih =>
      intro attempt rem h1 hrem hf hs
      have h0 : ok attempt = false := by simpa using hf 0 (Nat.succ_pos n)
      cases rem with
      | zero => omega
      | succ m =>
          cases m with
          | zero => omega
          | succ m =>
              have hshift : attempt + 1 + n = attempt + (n + 1) := by omega
              have hrest := ih (attempt + 1) (m + 1) (by omega) (by omega)
                (fun k hk => by
                  have h := hf (k + 1) (by omega)
                  have e : attempt + (k + 1) = attempt + 1 + k := by omega
                  rw [e] at h
                  exact h)
                (by rw [hshift]; exact hs)
              have hfun : ∀ j, attempt - 1 + (j + 1) = attempt + j := fun j => by omega
              simp only [sinkGo, h0, Bool.false_eq_true, if_false, hrest]
              simp [List.range_succ_eq_map, List.map_map, Function.comp, hfun,
                Nat.add_sub_cancel]

/-- Retry loop run from `attempt` with `rem` attempts remaining: when every
attempt fails, the loop sleeps the geometric backoff after each failed
attempt but the last and reports failure. -/
theorem sinkGo_all_fail (initD : Nat) (ok : Nat → Bool) :
    ∀ (rem attempt : Nat), 1 ≤ attempt →
      (∀ k, k < rem → ok (attempt + k) = false) →
      sinkGo initD ok attempt rem =
        ((List.range (rem - 1)).map fun j => initD * 2 ^ (attempt - 1 + j), false) := by
  intro rem
  induction rem with
  | zero => intro attempt h1 hf; simp [sinkGo]
  | succ m ih =>
      intro attempt h1 hf
      have h0 : ok attempt = false := by simpa using hf 0 (Nat.succ_pos m)
      cases m with
      | zero => simp [sinkGo, h0]
      | succ m =>
          have hrest := ih (attempt + 1) (by omega) (fun k hk => by
            have h := hf (k + 1) (by omega)
            have e : attempt + (k + 1) = attempt + 1 + k := by omega
            rw [e] at h
            exact h)
          have hfun : ∀ j, attempt - 1 + (j + 1) = attempt + j := fun j => by omega
          simp only [sinkGo, h0, Bool.false_eq_true, if_false, hrest]
          simp [List.range_succ_eq_map, List.map_map, Function.comp, hfun,
            Nat.add_sub_cancel]

/-- Model of `send_to_bigquery` of src/raspberry_to_gcp.py (lines 140-157):
a single `insert_rows_json` attempt whose error list or exception is only
printed — no retry loop, no backoff sleep, no cooldown, and no value
returned to the caller. `ok` is the outcome of the one insert; the result
is the (always empty) list of sleeps executed and whether the insert was
accepted. -/
def send_to_bigquery_v1 (ok : Bool) : List Nat × Bool := ([], ok)

/-- Claim C8 (amended): in the sink adapters of src/3_raspberry_to_gcp.py,
failed attempt `k` (1-indexed, `k < maxA`) is followed by a backoff sleep
of `initD * 2 ^ (k - 1)`; a write succeeding at attempt `s` returns having
slept exactly the backoffs of attempts `1 .. s-1` and never enters
cooldown, while a write failing all `maxA` attempts sleeps the backoffs of
attempts `1 .. maxA-1` plus the cooldown exactly once and then hands
control back to the pipeline — with the failure only logged, no signal
returned. In src/raspberry_to_gcp.py the sink write is a single attempt:
whatever its outcome, it performs no backoff sleep and no cooldown. -/
theorem sink_backoff_by_variant :
    (∀ (initD coolD maxA : Nat) (ok : Nat → Bool) (s : Nat),
        1 ≤ s → s ≤ maxA → (∀ k, 1 ≤ k → k < s → ok k = false) → ok s = true →
        sinkWrite initD coolD maxA ok =
          ((List.range (s - 1)).map fun j => initD * 2 ^ j, true)) ∧
    (∀ (initD coolD maxA : Nat) (ok : Nat → Bool),
        1 ≤ maxA → (∀ k, 1 ≤ k → k ≤ maxA → ok k = false) →
        sinkWrite initD coolD maxA ok =
          (((List.range (maxA - 1)).map fun j => initD * 2 ^ j) ++ [coolD], false)) ∧
    (∀ ok : Bool, send_to_bigquery_v1 ok = ([], ok)) := by
  refine ⟨?_, ?_, fun ok => rfl⟩
  · intro initD coolD maxA ok s hs1 hsm hf hs
    have hgo := sinkGo_first_success initD ok (s - 1) 1 maxA (le_refl 1) (by omega)
      (fun k hk => by
        have h := hf (1 + k) (by omega) (by omega)
        exact h)
      (by
        have e : 1 + (s - 1) = s := by omega
        rw [e]
        exact hs)
    unfold sinkWrite
    rw [hgo]
    simp
  · intro initD coolD maxA ok hm hf
    have hgo := sinkGo_all_fail initD ok maxA 1 (le_refl 1)
      (fun k hk => hf (1 + k) (by omega) (by omega))
    unfold sinkWrite
    rw [hgo]
    simp

/-- Claim C8 counterexample: in src/raspberry_to_gcp.py a failing append
write performs no backoff sleep and never sleeps the cooldown period — not
the exactly-once cooldown the claim requires of every sink write. -/
theorem failing_write_no_cooldown_v1_cex :
    send_to_bigquery_v1 false = ([], false) ∧
    (send_to_bigquery_v1 false).1.count COOL_DOWN_PERIOD = 0 := by
  refine ⟨rfl, rfl⟩

/-- Claim C9 (amended): every iteration of the polling loop — no-op cycles
with fewer than three lines, classification failures, parse failures and
non-duplicate deliveries — ends with the interval sleep, and no exception
within a cycle terminates the loop (every input yields a next state); the
one exception is a duplicate-reading iteration, whose `continue` bypasses
the interval sleep, performing no BigQuery call, leaving `last_sent`
unchanged and having made the one Firestore heartbeat write. -/
theorem iteration_sleeps_unless_duplicate (ts : String) (bqOk : Bool)
    (lines : List (List String)) (last_sent : Option Reading) :
    (monitorStepA ts bqOk lines last_sent).sleptInterval = true ∨
    ((monitorStepA ts bqOk lines last_sent).bqCalls = [] ∧
     (monitorStepA ts bqOk lines last_sent).last_sent = last_sent ∧
     (monitorStepA ts bqOk lines last_sent).fsWrites.length = 1) := by
  unfold monitorStepA dispatchA
  split
  · left; rfl
  · dsimp only
    split
    · split
      · split
        · right; exact ⟨rfl, rfl, rfl⟩
        · left; rfl
      · left; rfl
    · left; rfl

/-- Claim C9 counterexample: an iteration that reads the same three-line
window again, parses it to the very reading last delivered, and therefore
hits the duplicate `continue`, does not sleep the polling interval. -/
theorem duplicate_iteration_skips_sleep_cex :
    (monitorStepA "T" true [lineL, lineL, lineL] (some r0)).sleptInterval = false ∧
    (monitorStepA "T" true [lineL, lineL, lineL] (some r0)).bqCalls = [] := by
  refine ⟨by decide, by decide⟩
